import Mathlib

/-!
Shallow embedding of the standup-meeting orchestration core
(services/meetingService.js and services/aiService.js) together with
proofs about its lifecycle, completion and finalization behaviour.

Conventions of the embedding:
* wall-clock instants are naturals counting milliseconds and every
  operation that reads the clock takes the current instant as an
  explicit argument;
* the JavaScript `Map`s become association lists with `Map.set`
  replace-in-place semantics;
* sparse JavaScript arrays written positionally become lists of
  options, padded with `none` exactly where the source leaves holes;
* external collaborators (Azure OpenAI text generation, e-mail
  delivery, task synchronisation) are oracles passed in: text
  generation never throws in the source (it catches internally and
  returns a mock string) so it is a total function, while e-mail
  summary delivery and task sync rethrow on failure so their outcome
  is an `Except`;
* a thrown-and-rewrapped JavaScript error becomes an `Except.error`
  carrying the rewrapped message, and the state returned alongside it
  keeps every mutation performed before the throw, as in the source.
-/

namespace StandupCore

/-- Is `p` a leading segment of the second list?  Helper for the
substring test used to embed the JavaScript `String.includes`. -/
def charsLead : List Char → List Char → Bool
  | [], _ => true
  | _ :: _, [] => false
  | p :: ps, c :: cs => p == c && charsLead ps cs

/-- Does `p` occur contiguously somewhere in the second list? -/
def charsSub (p : List Char) : List Char → Bool
  | [] => charsLead p []
  | c :: cs => charsLead p (c :: cs) || charsSub p cs

/-- Embedding of JavaScript `s.includes(sub)`. -/
def strContains (s sub : String) : Bool := charsSub sub.data s.data

/-- Embedding of JavaScript `s.toLowerCase()` for the ASCII texts the
service handles. -/
def jsToLower (s : String) : String := String.mk (s.data.map Char.toLower)

/-- Embedding of the JavaScript array write `arr[i] = v` on a possibly
sparse array: in-range indices are overwritten, an out-of-range write
extends the array, filling the skipped slots with holes (`none`). -/
def jsSetIdx {α : Type} (l : List (Option α)) (i : Nat) (v : α) : List (Option α) :=
  if i < l.length then l.set i (some v)
  else l ++ List.replicate (i - l.length) none ++ [some v]

/-- Truthiness of a sparse-array read: the slot exists and is not a
hole. -/
def optPop {α : Type} : Option (Option α) → Bool
  | some (some _) => true
  | _ => false

/-- Embedding of JavaScript `Map.get`. -/
def mapGet {α : Type} (m : List (String × α)) (k : String) : Option α :=
  (m.find? (fun kv => kv.1 == k)).map (fun kv => kv.2)

/-- Embedding of JavaScript `Map.set`: replace the existing binding in
place (preserving insertion order), append otherwise. -/
def mapSet {α : Type} : List (String × α) → String → α → List (String × α)
  | [], k, v => [(k, v)]
  | kv :: rest, k, v =>
    if kv.1 == k then (k, v) :: rest else kv :: mapSet rest k v

/-- Embedding of JavaScript `Map.delete`. -/
def mapDelete {α : Type} (m : List (String × α)) (k : String) : List (String × α) :=
  m.filter (fun kv => kv.1 != k)

/-- One collected answer of a standup sub-session: the originating
question (`undefined`, hence `none`, when the question index was out of
range), the raw answer and the collection instant
(aiService.processStandupResponse, the entry stored into
`sessionData.responses`). -/
structure Answer where
  question : Option String
  answer : String
  timestamp : Nat
deriving DecidableEq

/-- The per-participant three-question standup state machine
(the session object of aiService.conductStandupSession, extended by
`processStandupResponse` with `lastAIResponse` and `isComplete`, both
absent — hence `none`/`false` — at creation). -/
structure StandupSubSession where
  questions : List String
  currentQuestionIndex : Nat
  responses : List (Option Answer)
  participantName : String
  sessionId : String
  lastAIResponse : Option String
  isComplete : Bool
deriving DecidableEq

/-- The three fixed questions, rendered with the name of the participant
(aiService.conductStandupSession). -/
def standupQuestions (participantName : String) : List String :=
  [ s!"Hello {participantName}! Let\x27s start with our daily standup. What did you accomplish yesterday?",
    "Great! Now, what are you planning to work on today?",
    "Perfect! Do you have any blockers or impediments that are preventing you from moving forward?" ]

/-- The JavaScript whitespace-to-underscore replacement applied to the
participant name when a session id is built, modelled character-wise
(the texts involved carry single blanks only). -/
def underscored (s : String) : String :=
  String.mk (s.data.map (fun c => if c.isWhitespace then '_' else c))

/-- aiService.conductStandupSession: fresh sub-session for a
participant, at question index 0 with no collected answers. -/
def conductStandupSession (participantName : String) (now : Nat) : StandupSubSession :=
  { questions := standupQuestions participantName,
    currentQuestionIndex := 0,
    responses := [],
    participantName := participantName,
    sessionId := s!"standup_{now}_" ++ underscored participantName,
    lastAIResponse := none,
    isComplete := false }

/-- Prompt sent to the language-generation collaborator after the
first question (aiService.processStandupResponse, questionIndex 0). -/
def ackPromptYesterday (response : String) : String :=
  s!"The team member said they accomplished: \"{response}\". Provide a brief, encouraging acknowledgment and ask about today\x27s plans."

/-- Prompt after the second question (questionIndex 1). -/
def ackPromptToday (response : String) : String :=
  s!"The team member plans to work on: \"{response}\". Acknowledge their plans and ask about any blockers."

/-- Prompt after the third question when the answer is not recognised
as "no blockers" (questionIndex 2, negative branch). -/
def ackPromptBlockers (response : String) : String :=
  s!"The team member mentioned these blockers: \"{response}\". Provide supportive response and indicate you\x27ll help address them."

/-- The fixed acknowledgment used when the third answer contains a
negation token (questionIndex 2, positive branch). -/
def noBlockersAck : String :=
  "Excellent! No blockers is great to hear. Thanks for the update!"

/-- The test the source applies to a third answer to detect "no
blockers": the lower-cased text contains "no" or "none". -/
def hasNegationToken (response : String) : Bool :=
  strContains (jsToLower response) "no" || strContains (jsToLower response) "none"

/-- aiService.processStandupResponse: records the answer at the given
question index, computes the acknowledgment (calling the
language-generation oracle `gen` except in the fixed "no blockers"
case and for out-of-range indices, where the acknowledgment stays the
initial empty string), advances the index and derives `isComplete`.
Also returns the list of prompts actually sent to the collaborator,
so that theorems can speak about whether the collaborator was
invoked. -/
def processStandupResponse (sessionData : StandupSubSession) (response : String)
    (questionIndex : Nat) (gen : String → String) (now : Nat) :
    StandupSubSession × List String :=
  let responses1 := jsSetIdx sessionData.responses questionIndex
    { question := sessionData.questions[questionIndex]?,
      answer := response, timestamp := now }
  let acked : String × List String :=
    if questionIndex == 0 then
      (gen (ackPromptYesterday response), [ackPromptYesterday response])
    else if questionIndex == 1 then
      (gen (ackPromptToday response), [ackPromptToday response])
    else if questionIndex == 2 then
      if hasNegationToken response then (noBlockersAck, [])
      else (gen (ackPromptBlockers response), [ackPromptBlockers response])
    else ("", [])
  ({ sessionData with
      responses := responses1,
      currentQuestionIndex := questionIndex + 1,
      lastAIResponse := some acked.1,
      isComplete := decide (questionIndex ≥ 2) }, acked.2)

/-- A blocker extracted from the third answers
(aiService.extractBlockers). -/
structure Blocker where
  participant : String
  blocker : String
  timestamp : Nat
deriving DecidableEq

/-- aiService.extractBlockers: the third answer of every participant
row that has one, unless it contains a negation token. -/
def extractBlockers (responses : List (Option (List (Option Answer)))) : List Blocker :=
  responses.enum.filterMap fun iv =>
    match iv.2 with
    | some participantResponses =>
      if participantResponses.length > 2 then
        match participantResponses[2]? with
        | some (some blockerResponse) =>
          if !(strContains (jsToLower blockerResponse.answer) "no")
              && !(strContains (jsToLower blockerResponse.answer) "none") then
            some { participant := s!"Participant {iv.1 + 1}",
                   blocker := blockerResponse.answer,
                   timestamp := blockerResponse.timestamp }
          else none
        | _ => none
      else none
    | none => none

/-- The meeting-data record assembled by the finalizer
(meetingService.endMeeting, step 2). -/
structure MeetingData where
  id : String
  title : String
  participants : List String
  responses : List (Option (List (Option Answer)))
  date : Nat
  duration : Nat
deriving DecidableEq

/-- The result of the summarization collaborator
(aiService.summarizeMeeting). -/
structure Summary where
  summary : String
  meetingDate : Nat
  participants : List String
  duration : Nat
  blockers : List Blocker
deriving DecidableEq

/-- Rendering of a possibly-undefined question text inside the
summarization prompt. -/
def jsShow (o : Option String) : String := o.getD "undefined"

/-- The per-participant block of the summarization prompt. -/
def summaryBlock (participants : List String) (iv : Nat × Option (List (Option Answer))) : String :=
  match iv.2 with
  | some participantResponses =>
    if participantResponses.length > 0 then
      "\n" ++ participants[iv.1]?.getD s!"Participant {iv.1 + 1}" ++ ":" ++
        String.join (participantResponses.map fun r =>
          match r with
          | some a => "\n- " ++ jsShow a.question ++ ": " ++ a.answer
          | none => "")
    else ""
  | none => ""

/-- aiService.summarizeMeeting: builds the summarization prompt, asks
the language-generation oracle, and extracts the blocker list. -/
def summarizeMeeting (meetingData : MeetingData) (gen : String → String) : Summary :=
  let prompt :=
    "Summarize this daily standup meeting:\n\nParticipants: " ++
    String.intercalate ", " meetingData.participants ++
    s!"\nMeeting Date: {meetingData.date}\n\nResponses:\n" ++
    String.join (meetingData.responses.enum.map (summaryBlock meetingData.participants))
  { summary := gen prompt,
    meetingDate := meetingData.date,
    participants := meetingData.participants,
    duration := meetingData.duration,
    blockers := extractBlockers meetingData.responses }

/-- The result of the blocker-analysis collaborator
(aiService.analyzeBlockers). -/
structure Analysis where
  analysis : String
  requiresEscalation : Bool
deriving DecidableEq

/-- The escalation keywords of aiService.analyzeBlockers. -/
def urgentKeywords : List String :=
  ["urgent", "critical", "blocked completely", "cannot proceed", "escalate"]

/-- aiService.analyzeBlockers: fixed no-escalation result on an empty
blocker list, otherwise an analysis from the language-generation
oracle with keyword-driven escalation detection. -/
def analyzeBlockers (blockers : List Blocker) (gen : String → String) : Analysis :=
  if blockers.isEmpty then
    { analysis := "No blockers were identified in this standup meeting.",
      requiresEscalation := false }
  else
    let blockersText := String.intercalate "\n"
      (blockers.map fun b => b.participant ++ ": " ++ b.blocker)
    let analysisText := gen
      ("Analyze these project blockers from a daily standup:\n\n" ++ blockersText ++
       "\n\nProvide detailed analysis including categorization, urgency assessment, and recommendations.")
    { analysis := analysisText,
      requiresEscalation := urgentKeywords.any fun kw =>
        strContains (jsToLower analysisText) kw || strContains (jsToLower blockersText) kw }

/-- A Meeting entity as built by meetingService.scheduleMeeting;
`startedAt`/`endedAt` are attached later, hence optional. -/
structure Meeting where
  id : String
  title : String
  participants : List String
  scheduledTime : Nat
  duration : Nat
  isVirtualScrumMaster : Bool
  timezone : String
  recurrence : String
  status : String
  createdAt : Nat
  createdBy : String
  startedAt : Option Nat := none
  endedAt : Option Nat := none
deriving DecidableEq

/-- The live session of an in-progress meeting
(the session object built by meetingService.startMeeting).  `responses` is the
sparse positional response table, `activeStandupSessions` the map from
participant name to their sub-session. -/
structure MeetingSession where
  meetingId : String
  participants : List String
  responses : List (Option (List (Option Answer)))
  currentParticipantIndex : Nat
  activeStandupSessions : List (String × StandupSubSession)
  startTime : Nat
  isVirtualScrumMaster : Bool
deriving DecidableEq

/-- The whole mutable state of the MeetingService singleton:
`meetings` and `activeSessions` are its two Maps, `scheduledJobs` the
Map of recurring cron jobs (holding only the keys — the job handles
carry no further observable state), and `pendingTimeouts` the armed
one-time `setTimeout` timers, which the source creates but never
stores or cancels. -/
structure ServiceState where
  meetings : List (String × Meeting)
  activeSessions : List (String × MeetingSession)
  scheduledJobs : List String
  pendingTimeouts : List String
deriving DecidableEq

/-- The empty state built by the MeetingService constructor. -/
def initialState : ServiceState :=
  { meetings := [], activeSessions := [], scheduledJobs := [], pendingTimeouts := [] }

/-- The request payload accepted by scheduleMeeting; absent fields are
`none` and take the JavaScript `||`-defaults. -/
structure MeetingSpec where
  title : Option String
  participants : Option (List String)
  scheduledTime : Nat
  duration : Option Nat
  isVirtualScrumMaster : Option Bool
  timezone : Option String
  recurrence : Option String
  createdBy : String
deriving DecidableEq

/-- Outcomes of the external collaborators consumed by one run of the
finalizer: the language-generation oracle (total — generateResponse
catches every error and returns a mock string), and the outcomes of
the summary e-mail, the escalation alert and the task sync.  The alert
outcome is swallowed by the catch inside alertTeamLead; the other two
rethrow into endMeeting. -/
structure Collab where
  gen : String → String
  sendSummary : Except Unit Unit
  sendAlert : Except Unit Unit
  syncTasks : Except Unit Unit

/-- An all-successful collaborator environment with a fixed
text-generation reply. -/
def collabOK : Collab :=
  { gen := fun _ => "ok", sendSummary := .ok (), sendAlert := .ok (), syncTasks := .ok () }

/-- meetingService.scheduleMeeting: builds the meeting with its
defaults, registers it, then arms the trigger — a recurring weekday
cron job when the raw recurrence field equals "daily", otherwise a one-time timer
whose arming throws when the instant lies strictly in the past.  The
registration happens before the past-instant check, so the error path
returns the state with the meeting already inserted. -/
def scheduleMeeting (meetingData : MeetingSpec) (newId : String) (now : Nat)
    (st : ServiceState) : ServiceState × Except String Meeting :=
  let meeting : Meeting :=
    { id := newId,
      title := meetingData.title.getD "Daily Standup",
      participants := meetingData.participants.getD [],
      scheduledTime := meetingData.scheduledTime,
      duration := meetingData.duration.getD 30,
      isVirtualScrumMaster := meetingData.isVirtualScrumMaster.getD false,
      timezone := meetingData.timezone.getD "UTC",
      recurrence := meetingData.recurrence.getD "none",
      status := "scheduled",
      createdAt := now,
      createdBy := meetingData.createdBy }
  let st1 := { st with meetings := mapSet st.meetings newId meeting }
  if meetingData.recurrence == some "daily" then
    ({ st1 with scheduledJobs :=
        if st1.scheduledJobs.contains newId then st1.scheduledJobs
        else st1.scheduledJobs ++ [newId] }, .ok meeting)
  else if meeting.scheduledTime < now then
    (st1, .error "Failed to schedule meeting")
  else
    ({ st1 with pendingTimeouts := st1.pendingTimeouts ++ [newId] }, .ok meeting)

/-- meetingService.startMeeting — also the callback every trigger
fires.  Fails only when the meeting id is unknown; otherwise it
unconditionally stamps `in-progress`/`startedAt` and installs a fresh
MeetingSession with an empty response table.  (The "meeting started"
notification is fire-and-forget and state-free.) -/
def startMeeting (meetingId : String) (now : Nat) (st : ServiceState) :
    ServiceState × Except String MeetingSession :=
  match mapGet st.meetings meetingId with
  | none => (st, .error "Failed to start meeting")
  | some meeting =>
    let session : MeetingSession :=
      { meetingId := meetingId,
        participants := meeting.participants,
        responses := [],
        currentParticipantIndex := 0,
        activeStandupSessions := [],
        startTime := now,
        isVirtualScrumMaster := meeting.isVirtualScrumMaster }
    let meeting1 := { meeting with status := "in-progress", startedAt := some now }
    ({ st with
        meetings := (mapSet st.meetings meetingId meeting1),
        activeSessions := (mapSet st.activeSessions meetingId session) },
     .ok session)

/-- What joinMeeting returns to the caller. -/
structure JoinResult where
  sessionId : Option String
  welcomeMessage : String
  firstQuestion : Option String
  meetingTitle : String
  meetingStartTime : Nat
  meetingParticipants : List String
deriving DecidableEq

/-- meetingService.joinMeeting: requires a live session and an invited
participant; with the virtual-facilitator flag it builds a fresh
sub-session via conductStandupSession and stores it under the
name of the participant (overwriting any existing one), otherwise
returns a plain welcome.  All throw paths are rewrapped by the catch
of the method. -/
def joinMeeting (meetingId participantName : String) (now : Nat) (st : ServiceState) :
    ServiceState × Except String JoinResult :=
  match mapGet st.activeSessions meetingId with
  | none => (st, .error "Failed to join meeting")
  | some session =>
    match mapGet st.meetings meetingId with
    | none => (st, .error "Failed to join meeting")
    | some meeting =>
      if !(meeting.participants.contains participantName) then
        (st, .error "Failed to join meeting")
      else if session.isVirtualScrumMaster then
        let standupSession := conductStandupSession participantName now
        let session1 := { session with activeStandupSessions := (mapSet
            session.activeStandupSessions participantName standupSession) }
        ({ st with activeSessions := (mapSet st.activeSessions meetingId session1) },
         .ok { sessionId := some standupSession.sessionId,
               welcomeMessage := s!"Welcome to the daily standup, {participantName}! I\x27m your virtual Scrum Master today.",
               firstQuestion := standupSession.questions[0]?,
               meetingTitle := meeting.title,
               meetingStartTime := session.startTime,
               meetingParticipants := session.participants })
      else
        (st, .ok { sessionId := none,
                   welcomeMessage := s!"Welcome to the daily standup, {participantName}!",
                   firstQuestion := none,
                   meetingTitle := meeting.title,
                   meetingStartTime := session.startTime,
                   meetingParticipants := session.participants })

/-- The duration computation of endMeeting:
`Math.round((now - session.startTime) / 60000)` in whole minutes. -/
def minutesBetween (startTime now : Nat) : Nat := (now - startTime + 30000) / 60000

/-- What endMeeting returns on success. -/
structure EndResult where
  summary : Summary
  blockerAnalysis : Analysis
  meetingData : MeetingData
deriving DecidableEq

/-- meetingService.endMeeting, the finalizer.  Steps in source order:
require both a live session and the meeting; mark the meeting
completed with `endedAt` and the recomputed duration; assemble the
meeting-data record; summarize; analyze blockers; send the summary
e-mail; optionally alert the team lead (whose failures alertTeamLead
swallows itself); sync tasks; delete the session.  There is no
per-step catch: a throwing e-mail or task-sync call escapes the whole
method (rewrapped by its outer catch) with the earlier mutations kept
and the session still registered. -/
def endMeeting (meetingId : String) (c : Collab) (now : Nat) (st : ServiceState) :
    ServiceState × Except String EndResult :=
  match mapGet st.activeSessions meetingId, mapGet st.meetings meetingId with
  | some session, some meeting =>
    let duration := minutesBetween session.startTime now
    let meeting1 := { meeting with status := "completed", endedAt := some now, duration := duration }
    let st1 := { st with meetings := (mapSet st.meetings meetingId meeting1) }
    let meetingData : MeetingData :=
      { id := meetingId, title := meeting.title, participants := session.participants,
        responses := session.responses, date := session.startTime, duration := duration }
    let summary := summarizeMeeting meetingData c.gen
    let blockerAnalysis := analyzeBlockers summary.blockers c.gen
    match c.sendSummary with
    | .error _ => (st1, .error "Failed to end meeting")
    | .ok _ =>
      match c.syncTasks with
      | .error _ => (st1, .error "Failed to end meeting")
      | .ok _ =>
        ({ st1 with activeSessions := mapDelete st1.activeSessions meetingId },
         .ok { summary := summary, blockerAnalysis := blockerAnalysis,
               meetingData := meetingData })
  | _, _ => (st, .error "Failed to end meeting")

/-- The completion count of meetingService.checkMeetingCompletion and
getActiveSessions: how many stored sub-sessions are complete. -/
def countComplete (session : MeetingSession) : Nat :=
  (session.activeStandupSessions.filter fun kv => kv.2.isComplete).length

/-- meetingService.checkMeetingCompletion: when every participant is
counted complete, call endMeeting.  A missing session makes the
unguarded property access throw (surfaced here as an error for the
catch of the caller to rewrap). -/
def checkMeetingCompletion (meetingId : String) (c : Collab) (now : Nat)
    (st : ServiceState) : ServiceState × Except String Unit :=
  match mapGet st.activeSessions meetingId with
  | none => (st, .error "TypeError: session is undefined")
  | some session =>
    if countComplete session == session.participants.length then
      let r := endMeeting meetingId c now st
      (r.1, r.2.map fun _ => ())
    else (st, .ok ())

/-- What submitStandupResponse returns to the participant. -/
structure SubmitResult where
  acknowledgment : Option String
  isComplete : Bool
  nextQuestion : Option String
  completionMessage : Option String
deriving DecidableEq

/-- The fixed completion message of submitStandupResponse. -/
def completionMsg : String :=
  "Thank you for your standup update! You can now leave the meeting or wait for others to finish."

/-- meetingService.submitStandupResponse: requires the session and the
sub-session of the participant, delegates to processStandupResponse at the
sub-session's current index, stores the updated sub-session, and — on
completion — writes the collected answers into the response table at
the first positional index of the participant and runs the completion
detector.  (An `indexOf` miss writes a negative-index property the
array never reads back, so the table is left unchanged in that case.)
Any throw below it is rewrapped by its catch. -/
def submitStandupResponse (meetingId participantName response : String) (c : Collab)
    (now : Nat) (st : ServiceState) : ServiceState × Except String SubmitResult :=
  match mapGet st.activeSessions meetingId with
  | none => (st, .error "Failed to submit standup response")
  | some session =>
    match mapGet session.activeStandupSessions participantName with
    | none => (st, .error "Failed to submit standup response")
    | some standupSession =>
      let updated := processStandupResponse standupSession response
        standupSession.currentQuestionIndex c.gen now
      let session1 := { session with activeStandupSessions := (mapSet
          session.activeStandupSessions participantName updated.1) }
      if !updated.1.isComplete then
        ({ st with activeSessions := mapSet st.activeSessions meetingId session1 },
         .ok { acknowledgment := updated.1.lastAIResponse,
               isComplete := false,
               nextQuestion := updated.1.questions[updated.1.currentQuestionIndex]?,
               completionMessage := none })
      else
        let session2 :=
          if session1.participants.contains participantName then
            { session1 with responses := (jsSetIdx session1.responses
                (session1.participants.indexOf participantName) updated.1.responses) }
          else session1
        let st2 := { st with activeSessions := mapSet st.activeSessions meetingId session2 }
        let chk := checkMeetingCompletion meetingId c now st2
        match chk.2 with
        | .error _ => (chk.1, .error "Failed to submit standup response")
        | .ok _ =>
          (chk.1, .ok { acknowledgment := updated.1.lastAIResponse,
                        isComplete := true,
                        nextQuestion := none,
                        completionMessage := some completionMsg })

/-- meetingService.cancelMeeting: requires the meeting, marks it
cancelled, and destroys the recurring cron job when one is registered.
One-time timers live in no map, so nothing else is torn down; the
cancellation notification is fire-and-forget. -/
def cancelMeeting (meetingId : String) (st : ServiceState) :
    ServiceState × Except String Meeting :=
  match mapGet st.meetings meetingId with
  | none => (st, .error "Failed to cancel meeting")
  | some meeting =>
    let meeting1 := { meeting with status := "cancelled" }
    let st1 := { st with meetings := mapSet st.meetings meetingId meeting1 }
    let st2 :=
      if st1.scheduledJobs.contains meetingId then
        { st1 with scheduledJobs := st1.scheduledJobs.filter (fun k => k != meetingId) }
      else st1
    (st2, .ok meeting1)

/-- The state mutations endMeeting performs before its first
suspension point (the awaited summarization call): the status flip,
the `endedAt` stamp and the duration recomputation of steps 1–2.  The
session removal of step 8 happens only after every awaited
collaborator call has returned. -/
def endMeetingPhase1 (meetingId : String) (now : Nat) (st : ServiceState) : ServiceState :=
  match mapGet st.activeSessions meetingId, mapGet st.meetings meetingId with
  | some session, some meeting =>
    let meeting1 := { meeting with status := "completed", endedAt := some now,
                                   duration := minutesBetween session.startTime now }
    { st with meetings := (mapSet st.meetings meetingId meeting1) }
  | _, _ => st

/-- The firing condition of the completion detector, read off a state. -/
def completionTriggered (st : ServiceState) (meetingId : String) : Bool :=
  match mapGet st.activeSessions meetingId with
  | some session => countComplete session == session.participants.length
  | none => false

/-- Is the response-table row of participant index `i` populated
(slot written and not a hole)? -/
def rowPopulated (session : MeetingSession) (i : Nat) : Bool :=
  optPop session.responses[i]?

/-- Does the participant at index `i` have a stored sub-session that
is complete? -/
def subCompleteAt (session : MeetingSession) (i : Nat) : Bool :=
  match session.participants[i]? with
  | some p =>
    match mapGet session.activeStandupSessions p with
    | some ss => ss.isComplete
    | none => false
  | none => false

/-- The response-table invariant of the specification:
`responses[i]` is populated exactly when the sub-session of
participant `i`
is complete. -/
def respTableInv (session : MeetingSession) : Bool :=
  (List.range session.participants.length).all fun i =>
    rowPopulated session i == subCompleteAt session i

/-- Internal well-formedness of the stored sub-sessions: `isComplete`
is exactly "the current question index has passed the three
questions", as maintained by processStandupResponse. -/
def subSessionsWF (session : MeetingSession) : Bool :=
  session.activeStandupSessions.all fun kv =>
    kv.2.isComplete == decide (kv.2.currentQuestionIndex ≥ 3)

/-! ### Association-list and sparse-array lemmas -/

theorem mapGet_mapSet_self {α : Type} (m : List (String × α)) (k : String) (v : α) :
    mapGet (mapSet m k v) k = some v := by
  induction m with
  | nil => simp [mapSet, mapGet, List.find?]
  | cons kv rest ih =>
    by_cases h : kv.1 == k
    · simp [mapSet, h, mapGet, List.find?]
    · simpa [mapSet, h, mapGet, List.find?] using ih

theorem mapGet_mapSet_ne {α : Type} (m : List (String × α)) (k k' : String) (v : α)
    (h : k' ≠ k) : mapGet (mapSet m k v) k' = mapGet m k' := by
  induction m with
  | nil =>
    simp only [mapSet, mapGet, List.find?]
    have : (k == k') = false := by simpa [beq_iff_eq] using fun e => h e.symm
    simp [this]
  | cons kv rest ih =>
    by_cases hk : kv.1 == k
    · have h1 : (k == k') = false := by simpa [beq_iff_eq] using fun e => h e.symm
      have h2 : (kv.1 == k') = false := by
        have : kv.1 = k := by simpa [beq_iff_eq] using hk
        simpa [this, beq_iff_eq] using fun e => h e.symm
      simp [mapSet, hk, mapGet, List.find?, h1, h2]
    · by_cases hk' : kv.1 == k'
      · simp [mapSet, hk, mapGet, List.find?, hk']
      · simpa [mapSet, hk, mapGet, List.find?, hk'] using ih

theorem mapGet_mapDelete_self {α : Type} (m : List (String × α)) (k : String) :
    mapGet (mapDelete m k) k = none := by
  have hfind : (mapDelete m k).find? (fun kv => kv.1 == k) = none := by
    rw [List.find?_eq_none]
    intro x hx
    have hmem := (List.mem_filter.mp hx).2
    simp only [bne_iff_ne, ne_eq, decide_eq_true_eq] at hmem
    simpa [beq_iff_eq] using hmem
  simp [mapGet, hfind]

theorem jsSetIdx_getElem?_self {α : Type} (l : List (Option α)) (j : Nat) (v : α) :
    (jsSetIdx l j v)[j]? = some (some v) := by
  unfold jsSetIdx
  split
  · exact List.getElem?_set_eq_of_lt (some v) (by assumption)
  · rename_i h
    have hlen : (l ++ List.replicate (j - l.length) none).length = j := by
      simp; omega
    rw [List.getElem?_append_right (le_of_eq hlen)]
    simp [hlen]

theorem optPop_jsSetIdx_ne {α : Type} (l : List (Option α)) (j i : Nat) (v : α)
    (h : i ≠ j) : optPop (jsSetIdx l j v)[i]? = optPop l[i]? := by
  unfold jsSetIdx
  split
  · rw [List.getElem?_set_ne (Ne.symm h)]
  · rename_i hj
    by_cases hi : i < l.length
    · rw [List.getElem?_append_left
          (show i < (l ++ List.replicate (j - l.length) none).length by simp; omega),
        List.getElem?_append_left hi]
    · rw [show l[i]? = none from List.getElem?_eq_none (by omega)]
      by_cases hij : i < j
      · rw [List.getElem?_append_left (by simp; omega),
          List.getElem?_append_right (by omega)]
        have hrep : i - l.length < j - l.length := by omega
        simp [List.getElem?_replicate, hrep, optPop]
      · rw [List.getElem?_eq_none (by simp; omega)]

/-! ### Small helpers and concrete fixtures used by the theorems -/

/-- Did the operation succeed? -/
def isOk {ε α : Type} : Except ε α → Bool
  | .ok _ => true
  | .error _ => false

/-- The stored sub-session of a participant inside a state, if any. -/
def subOf (st : ServiceState) (meetingId p : String) : Option StandupSubSession :=
  (mapGet st.activeSessions meetingId).bind
    fun session => mapGet session.activeStandupSessions p

/-- Placeholder session used to turn optional lookups into totals in
concrete computations. -/
def emptySession : MeetingSession :=
  { meetingId := "", participants := [], responses := [], currentParticipantIndex := 0,
    activeStandupSessions := [], startTime := 0, isVirtualScrumMaster := false }

/-- Placeholder sub-session counterpart of `emptySession`. -/
def emptySub : StandupSubSession :=
  { questions := [], currentQuestionIndex := 0, responses := [], participantName := "",
    sessionId := "", lastAIResponse := none, isComplete := false }

/-- A one-time spec whose instant (5) lies in the past of the call
instants used below. -/
def specPast : MeetingSpec :=
  { title := none, participants := some ["alice"], scheduledTime := 5,
    duration := none, isVirtualScrumMaster := some false, timezone := none,
    recurrence := some "none", createdBy := "boss" }

/-- A future one-time spec without the virtual facilitator. -/
def specOneTime : MeetingSpec :=
  { title := none, participants := some ["alice"], scheduledTime := 100000,
    duration := none, isVirtualScrumMaster := some false, timezone := none,
    recurrence := none, createdBy := "boss" }

/-- A future one-time spec with the virtual facilitator and the
duplicated participant identifier "alice". -/
def specDup : MeetingSpec :=
  { title := some "Standup", participants := some ["alice", "alice"],
    scheduledTime := 500000, duration := none, isVirtualScrumMaster := some true,
    timezone := none, recurrence := none, createdBy := "boss" }

/-- A future one-time spec with the virtual facilitator and the two
distinct participants "alice" and "bob". -/
def specPair : MeetingSpec :=
  { title := none, participants := some ["alice", "bob"], scheduledTime := 500000,
    duration := none, isVirtualScrumMaster := some true, timezone := none,
    recurrence := none, createdBy := "boss" }

/-- Trace: the duplicated-participant meeting scheduled, started,
joined by "alice", who then answers all three questions. -/
def stDupSched : ServiceState := (scheduleMeeting specDup "m1" 0 initialState).1

def stDupStarted : ServiceState := (startMeeting "m1" 1000 stDupSched).1

def stDupJoined : ServiceState := (joinMeeting "m1" "alice" 2000 stDupStarted).1

def stDupQ1 : ServiceState :=
  (submitStandupResponse "m1" "alice" "did stuff" collabOK 3000 stDupJoined).1

def stDupQ2 : ServiceState :=
  (submitStandupResponse "m1" "alice" "more stuff" collabOK 4000 stDupQ1).1

def stDupDone : ServiceState :=
  (submitStandupResponse "m1" "alice" "all clear" collabOK 5000 stDupQ2).1

/-- Trace: a one-time meeting scheduled for instant 100000, cancelled
at once, whose armed timer then fires anyway. -/
def stOneSched : ServiceState := (scheduleMeeting specOneTime "m2" 0 initialState).1

def stOneCancelled : ServiceState := (cancelMeeting "m2" stOneSched).1

def stOneFired : ServiceState := (startMeeting "m2" 100000 stOneCancelled).1

/-- Trace: the two-participant meeting started and joined. -/
def stPairSched : ServiceState := (scheduleMeeting specPair "m4" 0 initialState).1

def stPairStarted : ServiceState := (startMeeting "m4" 1000 stPairSched).1

def stAliceJoined : ServiceState := (joinMeeting "m4" "alice" 2000 stPairStarted).1

def stAliceQ1 : ServiceState :=
  (submitStandupResponse "m4" "alice" "shipped it" collabOK 3000 stAliceJoined).1

def stBothJoined : ServiceState := (joinMeeting "m4" "bob" 2500 stAliceJoined).1

/-- Trace continuing `stBothJoined`: "alice" answers all three
questions while "bob" stays at question one, so the session stays
live with a completed "alice" sub-session. -/
def stAliceDone : ServiceState :=
  (submitStandupResponse "m4" "alice" "blocked on review" collabOK 5000
    (submitStandupResponse "m4" "alice" "keep building" collabOK 4000
      (submitStandupResponse "m4" "alice" "built stuff" collabOK 3000 stBothJoined).1).1).1

deriving instance DecidableEq for Except

/-! ### Claim theorems -/

/-- Claim C8: in processStandupResponse for the third question
(question index 2), an answer whose lower-cased text contains the
token "no" or "none" makes the service skip the language-generation
collaborator (no prompt is sent) and answer with the fixed
"no blockers" acknowledgment; for every other third-question answer
exactly the blocker prompt is sent to the collaborator and its reply
becomes the acknowledgment. -/
theorem third_question_negation_skips_collaborator
    (sd : StandupSubSession) (response : String) (gen : String → String) (now : Nat) :
    (processStandupResponse sd response 2 gen now).2 =
      (if hasNegationToken response then [] else [ackPromptBlockers response]) ∧
    (processStandupResponse sd response 2 gen now).1.lastAIResponse =
      some (if hasNegationToken response then noBlockersAck
            else gen (ackPromptBlockers response)) := by
  by_cases h : hasNegationToken response <;> simp [processStandupResponse, h]

/-- Claim C5 (counterexample): scheduling a one-time meeting at the
past instant 5 when the clock reads 10 does fail, but the meeting has
nevertheless been registered — with status "scheduled" — so the
operation is not mutation-free as claimed. -/
theorem scheduleMeeting_past_mutates_cex :
    (scheduleMeeting specPast "m3" 10 initialState).2 =
      .error "Failed to schedule meeting" ∧
    (mapGet (scheduleMeeting specPast "m3" 10 initialState).1.meetings "m3").map
      (fun m => m.status) = some "scheduled" := by decide

/-- Claim C5 (amended): for a one-time spec, a scheduled instant
strictly before the clock makes scheduleMeeting fail — but with the
meeting already registered under status "scheduled" (the registration
precedes the validation); any other instant (including the present
one) makes it succeed with status "scheduled". -/
theorem scheduleMeeting_onetime_behavior
    (spec : MeetingSpec) (newId : String) (now : Nat) (st : ServiceState)
    (hrec : spec.recurrence.getD "none" = "none") :
    (spec.scheduledTime < now →
      (scheduleMeeting spec newId now st).2 = .error "Failed to schedule meeting" ∧
      (mapGet (scheduleMeeting spec newId now st).1.meetings newId).map
        (fun m => m.status) = some "scheduled") ∧
    (¬ spec.scheduledTime < now →
      isOk (scheduleMeeting spec newId now st).2 = true ∧
      (mapGet (scheduleMeeting spec newId now st).1.meetings newId).map
        (fun m => m.status) = some "scheduled") := by
  have hdaily : (spec.recurrence == some "daily") = false := by
    cases hr : spec.recurrence with
    | none => rfl
    | some s =>
      rw [hr] at hrec
      simp only [Option.getD_some] at hrec
      simp [hrec]
  constructor
  · intro hlt
    simp [scheduleMeeting, hdaily, hlt, mapGet_mapSet_self]
  · intro hge
    simp [scheduleMeeting, hdaily, hge, mapGet_mapSet_self, isOk]

/-- Claim C5 (witness): the two branches of
scheduleMeeting_onetime_behavior exercised at the concrete past and
future specs. -/
theorem scheduleMeeting_onetime_behavior_witness :
    (scheduleMeeting specPast "m3" 10 initialState).2 =
      .error "Failed to schedule meeting" ∧
    isOk (scheduleMeeting specOneTime "m2" 0 initialState).2 = true :=
  ⟨((scheduleMeeting_onetime_behavior specPast "m3" 10 initialState (by decide)).1
      (by decide)).1,
   ((scheduleMeeting_onetime_behavior specOneTime "m2" 0 initialState (by decide)).2
      (by decide)).1⟩

/-- Claim C6: cancelling the scheduled one-time meeting neither
removes its armed timer (the source never stores one-time timer
handles — only recurring cron jobs — so there is nothing to destroy)
nor makes the later firing harmless: the fired callback startMeeting
performs no status re-check and moves the cancelled meeting to
"in-progress" with a live session. -/
theorem cancelled_timer_still_fires :
    (mapGet stOneCancelled.meetings "m2").map (fun m => m.status) = some "cancelled" ∧
    stOneCancelled.pendingTimeouts = ["m2"] ∧
    stOneCancelled.scheduledJobs = [] ∧
    isOk (startMeeting "m2" 100000 stOneCancelled).2 = true ∧
    (mapGet stOneFired.meetings "m2").map (fun m => m.status) = some "in-progress" ∧
    (mapGet stOneFired.activeSessions "m2").isSome = true := by decide

/-- A meeting already in the terminal "completed" status. -/
def mCompletedFix : Meeting :=
  { id := "m1", title := "Retro", participants := ["alice"], scheduledTime := 10,
    duration := 12, isVirtualScrumMaster := false, timezone := "UTC",
    recurrence := "none", status := "completed", createdAt := 0, createdBy := "boss",
    startedAt := some 20, endedAt := some 740000 }

/-- A registry holding only the completed meeting. -/
def stCompleted : ServiceState :=
  { meetings := [("m1", mCompletedFix)], activeSessions := [],
    scheduledJobs := [], pendingTimeouts := [] }

/-- The meeting value of "m4" inside `stPairStarted`. -/
def mPairStarted : Meeting :=
  { id := "m4", title := "Daily Standup", participants := ["alice", "bob"],
    scheduledTime := 500000, duration := 30, isVirtualScrumMaster := true,
    timezone := "UTC", recurrence := "none", status := "in-progress",
    createdAt := 0, createdBy := "boss", startedAt := some 1000, endedAt := none }

/-- Claim C2 (counterexample): startMeeting on a meeting whose status
is the terminal "completed" neither no-ops nor fails InvalidTransition
— it succeeds and moves the meeting back to "in-progress", leaving the
terminal state. -/
theorem startMeeting_leaves_completed_cex :
    (mapGet stCompleted.meetings "m1").map (fun m => m.status) = some "completed" ∧
    isOk (startMeeting "m1" 50 stCompleted).2 = true ∧
    (mapGet (startMeeting "m1" 50 stCompleted).1.meetings "m1").map
      (fun m => m.status) = some "in-progress" := by decide

/-- Claim C2 (amended): the status state machine is not enforced.
startMeeting and cancelMeeting fail (NotFound) exactly on an unknown
meeting id, leaving the state untouched; on any existing meeting —
whatever its status, including "completed" and "cancelled" —
startMeeting succeeds and stamps "in-progress" while cancelMeeting
succeeds and stamps "cancelled". -/
theorem status_transitions_unguarded (st : ServiceState) (meetingId : String) (now : Nat) :
    (mapGet st.meetings meetingId = none →
      startMeeting meetingId now st = (st, .error "Failed to start meeting") ∧
      cancelMeeting meetingId st = (st, .error "Failed to cancel meeting")) ∧
    (∀ m, mapGet st.meetings meetingId = some m →
      isOk (startMeeting meetingId now st).2 = true ∧
      (mapGet (startMeeting meetingId now st).1.meetings meetingId).map
        (fun x => x.status) = some "in-progress" ∧
      isOk (cancelMeeting meetingId st).2 = true ∧
      (mapGet (cancelMeeting meetingId st).1.meetings meetingId).map
        (fun x => x.status) = some "cancelled") := by
  constructor
  · intro h
    simp [startMeeting, cancelMeeting, h]
  · intro m h
    refine ⟨by simp [startMeeting, h, isOk], by simp [startMeeting, h, mapGet_mapSet_self], ?_, ?_⟩
    · simp [cancelMeeting, h, isOk]
    · by_cases hj : meetingId ∈ st.scheduledJobs <;>
        simp [cancelMeeting, h, hj, mapGet_mapSet_self]

/-- Claim C2 (witness): both branches of status_transitions_unguarded
exercised concretely — an unknown id fails, and the completed meeting
of `stCompleted` is restarted and cancelled. -/
theorem status_transitions_unguarded_witness :
    startMeeting "ghost" 7 initialState = (initialState, .error "Failed to start meeting") ∧
    (mapGet (startMeeting "m1" 50 stCompleted).1.meetings "m1").map
      (fun x => x.status) = some "in-progress" ∧
    (mapGet (cancelMeeting "m1" stCompleted).1.meetings "m1").map
      (fun x => x.status) = some "cancelled" :=
  ⟨((status_transitions_unguarded initialState "ghost" 7).1 (by decide)).1,
   ((status_transitions_unguarded stCompleted "m1" 50).2 mCompletedFix (by decide)).2.1,
   ((status_transitions_unguarded stCompleted "m1" 50).2 mCompletedFix (by decide)).2.2.2⟩

/-- Claim C7 (counterexample): after "alice" has answered the first
question (sub-session at index 1 with one collected answer), a second
joinMeeting succeeds but resets her sub-session to index 0 with no
answers — the repeated join does not preserve progress, so it is not
idempotent. -/
theorem rejoin_resets_progress_cex :
    (subOf stAliceQ1 "m4" "alice").map
      (fun ss => (ss.currentQuestionIndex, ss.responses.length)) = some (1, 1) ∧
    isOk (joinMeeting "m4" "alice" 4000 stAliceQ1).2 = true ∧
    (subOf (joinMeeting "m4" "alice" 4000 stAliceQ1).1 "m4" "alice").map
      (fun ss => (ss.currentQuestionIndex, ss.responses.length, ss.isComplete)) =
      some (0, 0, false) := by decide

/-- Claim C7 (amended): a repeated join of an invited participant in a
virtual-facilitator session always succeeds, but it constructs a fresh
StandupSubSession (index 0, no answers, incomplete) that replaces any
existing one — resetting progress — and returns the fresh welcome
context with the first question. -/
theorem rejoin_replaces_subsession (st : ServiceState) (meetingId p : String) (now : Nat)
    (session : MeetingSession) (meeting : Meeting)
    (hs : mapGet st.activeSessions meetingId = some session)
    (hm : mapGet st.meetings meetingId = some meeting)
    (hinv : p ∈ meeting.participants)
    (hvsm : session.isVirtualScrumMaster = true) :
    isOk (joinMeeting meetingId p now st).2 = true ∧
    subOf (joinMeeting meetingId p now st).1 meetingId p =
      some (conductStandupSession p now) ∧
    (conductStandupSession p now).currentQuestionIndex = 0 ∧
    (conductStandupSession p now).responses = [] ∧
    (conductStandupSession p now).isComplete = false ∧
    ∀ r, (joinMeeting meetingId p now st).2 = .ok r →
      r.firstQuestion = (standupQuestions p)[0]? := by
  refine ⟨?_, ?_, rfl, rfl, rfl, ?_⟩
  · simp [joinMeeting, hs, hm, hinv, hvsm, isOk]
  · simp [joinMeeting, hs, hm, hinv, hvsm, subOf, mapGet_mapSet_self]
  · intro r hr
    simp [joinMeeting, hs, hm, hinv, hvsm] at hr
    simp [← hr, conductStandupSession]

/-- Claim C7 (witness): rejoin_replaces_subsession applied to the
state where "alice" already answered one question. -/
theorem rejoin_replaces_subsession_witness :
    subOf (joinMeeting "m4" "alice" 4000 stAliceQ1).1 "m4" "alice" =
      some (conductStandupSession "alice" 4000) :=
  (rejoin_replaces_subsession stAliceQ1 "m4" "alice" 4000
    ((mapGet stAliceQ1.activeSessions "m4").getD emptySession)
    ((mapGet stAliceQ1.meetings "m4").getD mCompletedFix)
    (by decide) (by decide) (by decide) (by decide)).2.1

/-- Claim C9: cancelMeeting on an in-progress meeting flags only the
status and destroys a recurring job handle when there is one: the
return value is the meeting with just the status replaced, the live
session table and the pending one-time timers are untouched, every
other meeting is untouched, and the job list merely loses the id. -/
theorem cancel_inprogress_frame (st : ServiceState) (meetingId : String) (m : Meeting)
    (hm : mapGet st.meetings meetingId = some m) (hstatus : m.status = "in-progress") :
    (cancelMeeting meetingId st).2 = .ok { m with status := "cancelled" } ∧
    (cancelMeeting meetingId st).1.activeSessions = st.activeSessions ∧
    (cancelMeeting meetingId st).1.pendingTimeouts = st.pendingTimeouts ∧
    mapGet (cancelMeeting meetingId st).1.meetings meetingId =
      some { m with status := "cancelled" } ∧
    (∀ k, k ≠ meetingId →
      mapGet (cancelMeeting meetingId st).1.meetings k = mapGet st.meetings k) ∧
    (cancelMeeting meetingId st).1.scheduledJobs =
      st.scheduledJobs.filter (fun k => k != meetingId) := by
  have hjobs : meetingId ∉ st.scheduledJobs →
      st.scheduledJobs.filter (fun k => k != meetingId) = st.scheduledJobs := by
    intro hnc
    apply List.filter_eq_self.mpr
    intro a ha
    simp only [bne_iff_ne, ne_eq, decide_eq_true_eq]
    intro he
    exact hnc (he ▸ ha)
  refine ⟨?_, ?_, ?_, ?_, ?_, ?_⟩ <;>
    by_cases hj : meetingId ∈ st.scheduledJobs <;>
      simp [cancelMeeting, hm, hj, mapGet_mapSet_self, hjobs]
  · intro k hk
    exact mapGet_mapSet_ne _ _ _ _ hk
  · intro k hk
    exact mapGet_mapSet_ne _ _ _ _ hk

/-- Claim C9 (witness): cancelling the live in-progress pair meeting
leaves its session table unchanged. -/
theorem cancel_inprogress_frame_witness :
    (cancelMeeting "m4" stPairStarted).1.activeSessions = stPairStarted.activeSessions ∧
    mapGet (cancelMeeting "m4" stPairStarted).1.meetings "m4" =
      some { mPairStarted with status := "cancelled" } :=
  ⟨(cancel_inprogress_frame stPairStarted "m4" mPairStarted (by decide) (by decide)).2.1,
   (cancel_inprogress_frame stPairStarted "m4" mPairStarted (by decide) (by decide)).2.2.2.1⟩

/-- A sub-session that has gone through all three questions. -/
def doneSub (p : String) : StandupSubSession :=
  (processStandupResponse
    ((processStandupResponse
      ((processStandupResponse (conductStandupSession p 0)
        "worked" 0 (fun _ => "ok") 1).1)
      "will work" 1 (fun _ => "ok") 2).1)
    "blocked on review" 2 (fun _ => "ok") 3).1

/-- The in-progress meeting record behind `stBothComplete`. -/
def mBothMeeting : Meeting :=
  { id := "m1", title := "Daily Standup", participants := ["alice", "bob"],
    scheduledTime := 500, duration := 30, isVirtualScrumMaster := true,
    timezone := "UTC", recurrence := "none", status := "in-progress",
    createdAt := 0, createdBy := "boss", startedAt := some 1000, endedAt := none }

/-- The session of `stBothComplete`: both participants complete, both
response-table rows written. -/
def sessionBoth : MeetingSession :=
  { meetingId := "m1", participants := ["alice", "bob"],
    responses := [some (doneSub "alice").responses, some (doneSub "bob").responses],
    currentParticipantIndex := 0,
    activeStandupSessions := [("alice", doneSub "alice"), ("bob", doneSub "bob")],
    startTime := 1000, isVirtualScrumMaster := true }

/-- The state the completion detector sees at the instant the last
participant finishes: every sub-session complete, session still
registered. -/
def stBothComplete : ServiceState :=
  { meetings := [("m1", mBothMeeting)], activeSessions := [("m1", sessionBoth)],
    scheduledJobs := [], pendingTimeouts := [] }

/-- A collaborator environment whose summary e-mail delivery fails. -/
def collabEmailDown : Collab :=
  { gen := fun _ => "ok", sendSummary := .error (), sendAlert := .ok (),
    syncTasks := .ok () }

/-- Claim C1: the firing condition of the completion detector holds in
`stBothComplete`, and it still holds on the state endMeeting has
produced after its steps 1–2 (everything before its first awaited
collaborator call): the session is still registered with every
sub-session complete, and a second completion check run at that point
fires a full second endMeeting (succeeding and tearing the session
down).  There is no finalized flag: nothing guards endMeeting against
the re-entrant double invocation the claim asserts to be impossible. -/
theorem finalizer_reentrancy_unguarded :
    completionTriggered stBothComplete "m1" = true ∧
    completionTriggered (endMeetingPhase1 "m1" 120000 stBothComplete) "m1" = true ∧
    (checkMeetingCompletion "m1" collabOK 130000
      (endMeetingPhase1 "m1" 120000 stBothComplete)).2 = .ok () ∧
    mapGet (checkMeetingCompletion "m1" collabOK 130000
      (endMeetingPhase1 "m1" 120000 stBothComplete)).1.activeSessions "m1" = none := by
  decide

/-- Claim C4 (counterexample): with both finalizer steps 1–2 succeeded
on `stBothComplete` and a failing summary e-mail (step 5), endMeeting
surfaces the failure instead of catching it, and step 8 does not run:
the session is still registered afterwards (while the status flip of
step 1 is kept). -/
theorem endMeeting_step5_failure_aborts_cex :
    (endMeeting "m1" collabEmailDown 120000 stBothComplete).2 =
      .error "Failed to end meeting" ∧
    (mapGet (endMeeting "m1" collabEmailDown 120000 stBothComplete).1.activeSessions
      "m1").isSome = true ∧
    (mapGet (endMeeting "m1" collabEmailDown 120000 stBothComplete).1.meetings
      "m1").map (fun m => m.status) = some "completed" := by decide

/-- Claim C4 (amended): whenever the meeting and session exist, the
mutations of steps 1–2 are kept under any outcome (the status is
"completed" afterwards, never rolled back) — but failures of the
summary notification or the task sync are not caught per step: either
failure makes endMeeting surface an error with the session still
registered (step 8 skipped); the session is discarded exactly when
both fallible collaborator calls succeed. -/
theorem endMeeting_failure_propagation (st : ServiceState) (meetingId : String)
    (c : Collab) (now : Nat) (session : MeetingSession) (meeting : Meeting)
    (hs : mapGet st.activeSessions meetingId = some session)
    (hm : mapGet st.meetings meetingId = some meeting) :
    (c.sendSummary = .error () →
      (endMeeting meetingId c now st).2 = .error "Failed to end meeting" ∧
      mapGet (endMeeting meetingId c now st).1.activeSessions meetingId = some session ∧
      (mapGet (endMeeting meetingId c now st).1.meetings meetingId).map
        (fun x => x.status) = some "completed") ∧
    (c.sendSummary = .ok () → c.syncTasks = .error () →
      (endMeeting meetingId c now st).2 = .error "Failed to end meeting" ∧
      mapGet (endMeeting meetingId c now st).1.activeSessions meetingId = some session ∧
      (mapGet (endMeeting meetingId c now st).1.meetings meetingId).map
        (fun x => x.status) = some "completed") ∧
    (c.sendSummary = .ok () → c.syncTasks = .ok () →
      isOk (endMeeting meetingId c now st).2 = true ∧
      mapGet (endMeeting meetingId c now st).1.activeSessions meetingId = none ∧
      (mapGet (endMeeting meetingId c now st).1.meetings meetingId).map
        (fun x => x.status) = some "completed") := by
  refine ⟨?_, ?_, ?_⟩
  · intro h1
    simp [endMeeting, hs, hm, h1, mapGet_mapSet_self]
  · intro h1 h2
    simp [endMeeting, hs, hm, h1, h2, mapGet_mapSet_self]
  · intro h1 h2
    simp [endMeeting, hs, hm, h1, h2, mapGet_mapSet_self, mapGet_mapDelete_self, isOk]

/-- Claim C4 (witness): endMeeting_failure_propagation exercised on
`stBothComplete`, once with the failing e-mail collaborator and once
with the all-successful one. -/
theorem endMeeting_failure_propagation_witness :
    mapGet (endMeeting "m1" collabEmailDown 120000 stBothComplete).1.activeSessions
      "m1" = some sessionBoth ∧
    mapGet (endMeeting "m1" collabOK 120000 stBothComplete).1.activeSessions
      "m1" = none :=
  ⟨((endMeeting_failure_propagation stBothComplete "m1" collabEmailDown 120000
      sessionBoth mBothMeeting (by decide) (by decide)).1 (by decide)).2.1,
   ((endMeeting_failure_propagation stBothComplete "m1" collabOK 120000
      sessionBoth mBothMeeting (by decide) (by decide)).2.2 (by decide) (by decide)).2.1⟩

/-- What submitStandupResponse does for a participant whose
sub-session is already complete at question index 3 with the three
answers collected: an extra answer with an undefined question text is
appended at index 3, the index advances to 4, completeness is kept,
the response-table row of the participant is overwritten with the enlarged
answer list, and the completion detector runs again on the updated
state, determining the final state and outcome. -/
def resubmitOutcome (st : ServiceState) (meetingId p response : String) (c : Collab)
    (now : Nat) (session : MeetingSession) (ss : StandupSubSession) : Prop :=
  let ss2 : StandupSubSession :=
    { ss with
        responses := ss.responses ++ [some { question := none, answer := response, timestamp := now }],
        currentQuestionIndex := 4, lastAIResponse := some "", isComplete := true }
  let session2 : MeetingSession :=
    { session with
        activeStandupSessions := mapSet session.activeStandupSessions p ss2,
        responses := jsSetIdx session.responses (session.participants.indexOf p) ss2.responses }
  let st2 : ServiceState := { st with activeSessions := mapSet st.activeSessions meetingId session2 }
  submitStandupResponse meetingId p response c now st =
    ((checkMeetingCompletion meetingId c now st2).1,
      match (checkMeetingCompletion meetingId c now st2).2 with
      | .ok _ => .ok { acknowledgment := some "", isComplete := true,
                       nextQuestion := none, completionMessage := some completionMsg }
      | .error _ => .error "Failed to submit standup response")

/-- Claim C10: a submission from an already-complete participant is
not rejected — it behaves as described by `resubmitOutcome`. -/
theorem resubmit_after_complete (st : ServiceState) (meetingId p response : String)
    (c : Collab) (now : Nat) (session : MeetingSession) (ss : StandupSubSession)
    (hs : mapGet st.activeSessions meetingId = some session)
    (hss : mapGet session.activeStandupSessions p = some ss)
    (hc : ss.isComplete = true) (hidx : ss.currentQuestionIndex = 3)
    (hq : ss.questions.length = 3) (hr : ss.responses.length = 3)
    (hp : p ∈ session.participants) :
    resubmitOutcome st meetingId p response c now session ss := by
  have hq3 : ss.questions[3]? = none := List.getElem?_eq_none (by omega)
  have hset : jsSetIdx ss.responses 3
      { question := ss.questions[3]?, answer := response, timestamp := now } =
      ss.responses ++ [some { question := none, answer := response, timestamp := now }] := by
    unfold jsSetIdx
    rw [hq3]
    simp [hr]
  unfold resubmitOutcome
  simp only [submitStandupResponse, hs, hss, hidx,
    processStandupResponse, hset]
  simp [hp]
  split <;> simp_all

/-- Claim C10 (witness): resubmit_after_complete applied to the state
where "alice" is complete and "bob" is still answering. -/
theorem resubmit_after_complete_witness :
    resubmitOutcome stAliceDone "m4" "alice" "one more thing" collabOK 6000
      ((mapGet stAliceDone.activeSessions "m4").getD emptySession)
      ((subOf stAliceDone "m4" "alice").getD emptySub) :=
  resubmit_after_complete stAliceDone "m4" "alice" "one more thing" collabOK 6000
    ((mapGet stAliceDone.activeSessions "m4").getD emptySession)
    ((subOf stAliceDone "m4" "alice").getD emptySub)
    (by decide) (by decide) (by decide) (by decide) (by decide) (by decide) (by decide)

/-! ### Support lemmas for the response-table invariant -/

theorem find?_filter_ne {α : Type} (m : List (String × α)) (k k' : String)
    (h : k' ≠ k) :
    (m.filter (fun kv => kv.1 != k)).find? (fun kv => kv.1 == k') =
      m.find? (fun kv => kv.1 == k') := by
  induction m with
  | nil => rfl
  | cons kv rest ih =>
    rw [List.filter_cons]
    by_cases hk : kv.1 = k
    · have hb : ((fun kv => kv.1 != k) kv = true) = False := by simp [hk]
      rw [if_neg (by simp [hb]), ih,
        List.find?_cons_of_neg _ (by simp [beq_iff_eq, hk]; exact fun e => h e.symm)]
    · rw [if_pos (by simpa [bne_iff_ne] using hk)]
      by_cases hk' : kv.1 = k'
      · rw [List.find?_cons_of_pos _ (by simp [beq_iff_eq, hk']),
          List.find?_cons_of_pos _ (by simp [beq_iff_eq, hk'])]
      · rw [List.find?_cons_of_neg _ (by simp [beq_iff_eq, hk']),
          List.find?_cons_of_neg _ (by simp [beq_iff_eq, hk']), ih]

theorem mapGet_mapDelete_ne {α : Type} (m : List (String × α)) (k k' : String)
    (h : k' ≠ k) : mapGet (mapDelete m k) k' = mapGet m k' := by
  unfold mapGet mapDelete
  rw [find?_filter_ne m k k' h]

theorem mem_mapSet {α : Type} (m : List (String × α)) (k : String) (v : α) :
    ∀ kv ∈ mapSet m k v, kv = (k, v) ∨ kv ∈ m := by
  induction m with
  | nil => simp [mapSet]
  | cons hd rest ih =>
    intro kv hkv
    by_cases h : hd.1 == k
    · simp only [mapSet, h, if_pos] at hkv
      rcases List.mem_cons.mp hkv with h1 | h1
      · exact Or.inl h1
      · exact Or.inr (List.mem_cons_of_mem hd h1)
    · simp only [mapSet, h, if_neg, Bool.false_eq_true, not_false_iff] at hkv
      rcases List.mem_cons.mp hkv with h1 | h1
      · exact Or.inr (h1 ▸ List.mem_cons_self hd rest)
      · rcases ih kv h1 with h2 | h2
        · exact Or.inl h2
        · exact Or.inr (List.mem_cons_of_mem hd h2)

theorem all_mapSet {α : Type} (pb : String × α → Bool) (m : List (String × α))
    (k : String) (v : α) (hm : m.all pb = true) (hv : pb (k, v) = true) :
    (mapSet m k v).all pb = true := by
  rw [List.all_eq_true] at hm ⊢
  intro kv hkv
  rcases mem_mapSet m k v kv hkv with h | h
  · exact h ▸ hv
  · exact hm kv h

theorem mapGet_some_mem {α : Type} (m : List (String × α)) (k : String) (v : α)
    (h : mapGet m k = some v) : (k, v) ∈ m := by
  unfold mapGet at h
  cases hf : m.find? (fun kv => kv.1 == k) with
  | none => rw [hf] at h; simp at h
  | some kv =>
    rw [hf] at h
    have h2 : kv.2 = v := by simpa using h
    have hmem := List.mem_of_find?_eq_some hf
    have hkey : kv.1 = k := by simpa [beq_iff_eq] using List.find?_some hf
    have hkv : kv = (k, v) := by
      rw [← hkey, ← h2]
    exact hkv ▸ hmem

theorem wf_lookup (session : MeetingSession) (p : String) (ss : StandupSubSession)
    (hwf : subSessionsWF session = true)
    (hss : mapGet session.activeStandupSessions p = some ss) :
    ss.isComplete = decide (ss.currentQuestionIndex ≥ 3) := by
  have hmem := mapGet_some_mem _ _ _ hss
  have := (List.all_eq_true.mp hwf) (p, ss) hmem
  simpa [beq_iff_eq] using this

theorem respTableInv_iff (session : MeetingSession) :
    respTableInv session = true ↔
      ∀ i, i < session.participants.length →
        rowPopulated session i = subCompleteAt session i := by
  simp [respTableInv, List.all_eq_true, List.mem_range, beq_iff_eq]

theorem process_isComplete (ss : StandupSubSession) (r : String) (qi : Nat)
    (gen : String → String) (now : Nat) :
    (processStandupResponse ss r qi gen now).1.isComplete = decide (qi ≥ 2) := by
  simp [processStandupResponse]

theorem process_index (ss : StandupSubSession) (r : String) (qi : Nat)
    (gen : String → String) (now : Nat) :
    (processStandupResponse ss r qi gen now).1.currentQuestionIndex = qi + 1 := by
  simp [processStandupResponse]

theorem process_wf (ss : StandupSubSession) (r : String) (qi : Nat)
    (gen : String → String) (now : Nat) :
    (processStandupResponse ss r qi gen now).1.isComplete =
      decide ((processStandupResponse ss r qi gen now).1.currentQuestionIndex ≥ 3) := by
  rw [process_isComplete, process_index]
  rcases Nat.lt_or_ge qi 2 with h | h
  · have h3 : ¬ qi + 1 ≥ 3 := by omega
    simp [Nat.not_le_of_lt h, h3]
  · have h3 : qi + 1 ≥ 3 := by omega
    simp [h, h3]

theorem endMeeting_sessions_cases (meetingId : String) (c : Collab) (now : Nat)
    (st : ServiceState) (k : String) :
    mapGet (endMeeting meetingId c now st).1.activeSessions k =
      mapGet st.activeSessions k ∨
    mapGet (endMeeting meetingId c now st).1.activeSessions k = none := by
  unfold endMeeting
  cases h1 : mapGet st.activeSessions meetingId with
  | none => left; cases h2 : mapGet st.meetings meetingId <;> simp
  | some session =>
    cases h2 : mapGet st.meetings meetingId with
    | none => left; simp
    | some meeting =>
      cases h3 : c.sendSummary with
      | error e => left; simp [h3]
      | ok u =>
        cases h4 : c.syncTasks with
        | error e => left; simp [h3, h4]
        | ok u2 =>
          by_cases hk : k = meetingId
          · right; simp [h3, h4, hk, mapGet_mapDelete_self]
          · left; simp [h3, h4, mapGet_mapDelete_ne _ _ _ hk]

theorem checkCompletion_sessions_cases (meetingId : String) (c : Collab) (now : Nat)
    (st : ServiceState) (k : String) :
    mapGet (checkMeetingCompletion meetingId c now st).1.activeSessions k =
      mapGet st.activeSessions k ∨
    mapGet (checkMeetingCompletion meetingId c now st).1.activeSessions k = none := by
  unfold checkMeetingCompletion
  cases h1 : mapGet st.activeSessions meetingId with
  | none => left; simp
  | some session =>
    by_cases h2 : countComplete session == session.participants.length
    · simpa [h2] using endMeeting_sessions_cases meetingId c now st k
    · left; simp [h2]

theorem respInv_subsessionSet_incomplete (session : MeetingSession) (p : String)
    (v : StandupSubSession)
    (hinv : respTableInv session = true)
    (hvf : v.isComplete = false)
    (hold : ∀ ss, mapGet session.activeStandupSessions p = some ss → ss.isComplete = false) :
    respTableInv
      { session with activeStandupSessions := mapSet session.activeStandupSessions p v } =
      true := by
  rw [respTableInv_iff] at hinv ⊢
  intro i hi
  simp only [MeetingSession.mk.injEq] at hi ⊢
  have hrow : rowPopulated
      { session with activeStandupSessions := mapSet session.activeStandupSessions p v } i =
      rowPopulated session i := rfl
  rw [hrow]
  have hbase := hinv i hi
  unfold subCompleteAt at hbase ⊢
  cases hq : session.participants[i]? with
  | none => simpa [hq] using hbase
  | some q =>
    by_cases hqp : q = p
    · subst hqp
      rw [hbase]
      simp only [hq, mapGet_mapSet_self, hvf]
      cases hold2 : mapGet session.activeStandupSessions q with
      | none => simp [hq, hold2]
      | some ss => simp [hq, hold2, hold ss hold2]
    · simp only [hq] at hbase ⊢
      rw [mapGet_mapSet_ne _ _ _ _ hqp, hbase]

theorem respInv_subsessionSet_complete_row (session : MeetingSession) (p : String)
    (v : StandupSubSession) (rows : List (Option Answer))
    (hnd : session.participants.Nodup)
    (hin : p ∈ session.participants)
    (hinv : respTableInv session = true)
    (hvt : v.isComplete = true) :
    respTableInv
      { session with
          activeStandupSessions := mapSet session.activeStandupSessions p v,
          responses := jsSetIdx session.responses (session.participants.indexOf p) rows } =
      true := by
  rw [respTableInv_iff] at hinv ⊢
  intro i hi
  have hidxlt : session.participants.indexOf p < session.participants.length :=
    List.indexOf_lt_length.mpr hin
  by_cases hip : i = session.participants.indexOf p
  · have hq : session.participants[i]? = some p := by
      rw [hip, List.getElem?_eq_getElem hidxlt]
      exact congrArg some (List.getElem_indexOf hidxlt)
    unfold rowPopulated subCompleteAt
    simp only [hq, mapGet_mapSet_self, hvt]
    rw [hip, jsSetIdx_getElem?_self]
    rfl
  · have hbase := hinv i hi
    unfold rowPopulated subCompleteAt at hbase ⊢
    rw [optPop_jsSetIdx_ne _ _ _ _ hip]
    cases hq : session.participants[i]? with
    | none => simpa [hq] using hbase
    | some q =>
      have hqlt : i < session.participants.length := hi
      have hqv : session.participants[i] = q := by
        have := List.getElem?_eq_getElem hqlt
        rw [hq] at this
        exact (Option.some.injEq _ _).mp this.symm
      have hqp : q ≠ p := by
        intro he
        apply hip
        have := List.indexOf_getElem hnd i hqlt
        rw [hqv, he] at this
        exact this.symm
      simp only [hq] at hbase ⊢
      rw [mapGet_mapSet_ne _ _ _ _ hqp, hbase]

theorem respInv_subsessionSet_notin (session : MeetingSession) (p : String)
    (v : StandupSubSession)
    (hnotin : p ∉ session.participants)
    (hinv : respTableInv session = true) :
    respTableInv
      { session with activeStandupSessions := mapSet session.activeStandupSessions p v } =
      true := by
  rw [respTableInv_iff] at hinv ⊢
  intro i hi
  have hbase := hinv i hi
  unfold rowPopulated subCompleteAt at hbase ⊢
  cases hq : session.participants[i]? with
  | none => simpa [hq] using hbase
  | some q =>
    have hqmem : q ∈ session.participants := by
      have := List.getElem?_eq_getElem (hi : i < session.participants.length)
      rw [hq] at this
      exact (Option.some.injEq _ _).mp this.symm ▸ List.getElem_mem _
    have hqp : q ≠ p := fun he => hnotin (he ▸ hqmem)
    simp only [hq] at hbase ⊢
    rw [mapGet_mapSet_ne _ _ _ _ hqp, hbase]

theorem subSessionsWF_set (session : MeetingSession) (p : String) (v : StandupSubSession)
    (hwf : subSessionsWF session = true)
    (hv : v.isComplete = decide (v.currentQuestionIndex ≥ 3)) :
    (mapSet session.activeStandupSessions p v).all
      (fun kv => kv.2.isComplete == decide (kv.2.currentQuestionIndex ≥ 3)) = true :=
  all_mapSet _ _ _ _ hwf (by simp [hv])

theorem inv_start (st : ServiceState) (meetingId : String) (now : Nat)
    (st' : ServiceState) (sess : MeetingSession)
    (h : startMeeting meetingId now st = (st', .ok sess)) :
    respTableInv sess = true ∧ subSessionsWF sess = true := by
  unfold startMeeting at h
  cases hm : mapGet st.meetings meetingId with
  | none => rw [hm] at h; simp at h
  | some meeting =>
    rw [hm] at h
    have hsess : sess =
        { meetingId := meetingId, participants := meeting.participants, responses := [],
          currentParticipantIndex := 0, activeStandupSessions := [], startTime := now,
          isVirtualScrumMaster := meeting.isVirtualScrumMaster } := by
      have h2 := congrArg Prod.snd h
      simpa using h2.symm
    subst hsess
    constructor
    · rw [respTableInv_iff]
      intro i hi
      unfold rowPopulated subCompleteAt
      cases hq : meeting.participants[i]? <;> simp [hq, optPop, mapGet]
    · rfl

theorem inv_join (st : ServiceState) (meetingId p : String) (now : Nat)
    (session : MeetingSession)
    (hs : mapGet st.activeSessions meetingId = some session)
    (hinv : respTableInv session = true) (hwf : subSessionsWF session = true)
    (hnc : ∀ ss, mapGet session.activeStandupSessions p = some ss → ss.isComplete = false)
    (session' : MeetingSession)
    (h' : mapGet (joinMeeting meetingId p now st).1.activeSessions meetingId =
      some session') :
    respTableInv session' = true ∧ subSessionsWF session' = true := by
  unfold joinMeeting at h'
  rw [hs] at h'
  cases hm : mapGet st.meetings meetingId with
  | none =>
    rw [hm, hs] at h'
    cases h'
    exact ⟨hinv, hwf⟩
  | some meeting =>
    rw [hm] at h'
    simp only [] at h'
    by_cases hin : p ∈ meeting.participants
    · rw [if_neg (by simp [hin])] at h'
      by_cases hvsm : session.isVirtualScrumMaster = true
      · rw [if_pos hvsm] at h'
        simp only [mapGet_mapSet_self, Option.some.injEq] at h'
        subst h'
        refine ⟨?_, ?_⟩
        · exact respInv_subsessionSet_incomplete session p
            (conductStandupSession p now) hinv rfl hnc
        · exact subSessionsWF_set session p (conductStandupSession p now) hwf rfl
      · rw [if_neg hvsm] at h'
        simp only [hs, Option.some.injEq] at h'
        subst h'
        exact ⟨hinv, hwf⟩
    · rw [if_pos (by simp [hin])] at h'
      simp only [hs, Option.some.injEq] at h'
      subst h'
      exact ⟨hinv, hwf⟩

theorem inv_submit (st : ServiceState) (meetingId p response : String) (c : Collab)
    (now : Nat) (session : MeetingSession)
    (hs : mapGet st.activeSessions meetingId = some session)
    (hnd : session.participants.Nodup)
    (hinv : respTableInv session = true) (hwf : subSessionsWF session = true)
    (session' : MeetingSession)
    (h' : mapGet (submitStandupResponse meetingId p response c now st).1.activeSessions
      meetingId = some session') :
    respTableInv session' = true ∧ subSessionsWF session' = true := by
  unfold submitStandupResponse at h'
  rw [hs] at h'
  simp only [] at h'
  cases hss : mapGet session.activeStandupSessions p with
  | none =>
    rw [hss] at h'
    simp only [hs, Option.some.injEq] at h'
    subst h'
    exact ⟨hinv, hwf⟩
  | some ss =>
    rw [hss] at h'
    simp only [] at h'
    have hwssc : ss.isComplete = decide (ss.currentQuestionIndex ≥ 3) :=
      wf_lookup session p ss hwf hss
    have hupdwf :
        (processStandupResponse ss response ss.currentQuestionIndex c.gen now).1.isComplete =
        decide ((processStandupResponse ss response ss.currentQuestionIndex
          c.gen now).1.currentQuestionIndex ≥ 3) :=
      process_wf ss response ss.currentQuestionIndex c.gen now
    by_cases hcomp :
        (processStandupResponse ss response ss.currentQuestionIndex c.gen now).1.isComplete
          = true
    · -- the sub-session has just completed: the row is written and the
      -- completion detector runs
      rw [if_neg (by simp [hcomp])] at h'
      by_cases hin : p ∈ session.participants
      · rw [if_pos (by simp [hin])] at h'
        split at h'
        all_goals
          simp only at h'
          rcases checkCompletion_sessions_cases meetingId c now
              { st with activeSessions := (mapSet st.activeSessions meetingId
                { session with
                    activeStandupSessions := (mapSet session.activeStandupSessions p
                      (processStandupResponse ss response ss.currentQuestionIndex c.gen now).1),
                    responses := (jsSetIdx session.responses (session.participants.indexOf p)
                      (processStandupResponse ss response ss.currentQuestionIndex
                        c.gen now).1.responses) }) }
              meetingId with hcs | hcs
        all_goals rw [hcs] at h'
        case _ _ _ =>
          rw [mapGet_mapSet_self] at h'
          cases h'
          exact ⟨respInv_subsessionSet_complete_row session p _ _ hnd hin hinv hcomp,
            subSessionsWF_set session p _ hwf hupdwf⟩
        case _ _ _ => cases h'
        case _ _ _ =>
          rw [mapGet_mapSet_self] at h'
          cases h'
          exact ⟨respInv_subsessionSet_complete_row session p _ _ hnd hin hinv hcomp,
            subSessionsWF_set session p _ hwf hupdwf⟩
        case _ _ _ => cases h'
      · rw [if_neg (by simp [hin])] at h'
        split at h'
        all_goals
          simp only at h'
          rcases checkCompletion_sessions_cases meetingId c now
              { st with activeSessions := (mapSet st.activeSessions meetingId
                { session with
                    activeStandupSessions := (mapSet session.activeStandupSessions p
                      (processStandupResponse ss response ss.currentQuestionIndex
                        c.gen now).1) }) }
              meetingId with hcs | hcs
        all_goals rw [hcs] at h'
        case _ _ _ =>
          rw [mapGet_mapSet_self] at h'
          cases h'
          exact ⟨respInv_subsessionSet_notin session p _ hin hinv,
            subSessionsWF_set session p _ hwf hupdwf⟩
        case _ _ _ => cases h'
        case _ _ _ =>
          rw [mapGet_mapSet_self] at h'
          cases h'
          exact ⟨respInv_subsessionSet_notin session p _ hin hinv,
            subSessionsWF_set session p _ hwf hupdwf⟩
        case _ _ _ => cases h'
    · -- the sub-session is still mid-flow: only the sub-session map is
      -- replaced
      rw [if_pos (by simp [hcomp])] at h'
      simp only [mapGet_mapSet_self, Option.some.injEq] at h'
      subst h'
      have hold : ∀ ss0, mapGet session.activeStandupSessions p = some ss0 →
          ss0.isComplete = false := by
        intro ss0 hss0
        rw [hss0] at hss
        cases hss
        rw [process_isComplete] at hcomp
        rw [hwssc, decide_eq_false_iff_not]
        simp only [decide_eq_true_eq] at hcomp
        omega
      refine ⟨?_, ?_⟩
      · exact respInv_subsessionSet_incomplete session p _ hinv (by simpa using hcomp) hold
      · exact subSessionsWF_set session p _ hwf hupdwf

/-- Claim C3 (counterexample): in the duplicated-participant trace
(participants ["alice", "alice"]) after "alice" completes, the
sub-session behind participants[1] is complete but responses[1] is not
populated (only index 0, the first occurrence found by indexOf, was
written), so the claimed equivalence fails on lists with duplicate
identifiers and the state is reachable. -/
theorem responses_iff_complete_duplicates_cex :
    (mapGet stDupDone.activeSessions "m1").map
      (fun s => (s.participants, subCompleteAt s 1, rowPopulated s 1, respTableInv s)) =
      some (["alice", "alice"], true, false, false) := by decide

/-- Claim C3 (amended): the equivalence "responses[i] is populated iff
the sub-session of participants[i] is complete" is an invariant of the
operations only for duplicate-free participant lists and join calls
that do not target an already-complete sub-session: startMeeting
establishes it for the fresh session, joinMeeting preserves it when
the existing sub-session of the joining participant (if any) is incomplete,
and submitStandupResponse preserves it when the participant
identifiers are pairwise distinct (internal sub-session
well-formedness is carried along). -/
theorem responses_iff_complete_inv :
    (∀ st meetingId now st' sess,
      startMeeting meetingId now st = (st', .ok sess) →
      respTableInv sess = true ∧ subSessionsWF sess = true) ∧
    (∀ st meetingId p now session session',
      mapGet st.activeSessions meetingId = some session →
      respTableInv session = true → subSessionsWF session = true →
      (∀ ss, mapGet session.activeStandupSessions p = some ss → ss.isComplete = false) →
      mapGet (joinMeeting meetingId p now st).1.activeSessions meetingId = some session' →
      respTableInv session' = true ∧ subSessionsWF session' = true) ∧
    (∀ st meetingId p response c now session session',
      mapGet st.activeSessions meetingId = some session →
      session.participants.Nodup →
      respTableInv session = true → subSessionsWF session = true →
      mapGet (submitStandupResponse meetingId p response c now st).1.activeSessions
        meetingId = some session' →
      respTableInv session' = true ∧ subSessionsWF session' = true) :=
  ⟨fun st meetingId now st' sess h => inv_start st meetingId now st' sess h,
   fun st meetingId p now session session' hs hi hw hn h' =>
     inv_join st meetingId p now session hs hi hw hn session' h',
   fun st meetingId p response c now session session' hs hnd hi hw h' =>
     inv_submit st meetingId p response c now session hs hnd hi hw session' h'⟩

/-- Claim C3 (witness): the three parts of responses_iff_complete_inv
applied along the concrete two-participant trace — session creation,
"bob" joining, and a submission by "alice". -/
theorem responses_iff_complete_inv_witness :
    (respTableInv ((mapGet stPairStarted.activeSessions "m4").getD emptySession) = true ∧
      subSessionsWF ((mapGet stPairStarted.activeSessions "m4").getD emptySession) = true) ∧
    (respTableInv ((mapGet stBothJoined.activeSessions "m4").getD emptySession) = true ∧
      subSessionsWF ((mapGet stBothJoined.activeSessions "m4").getD emptySession) = true) ∧
    (respTableInv ((mapGet (submitStandupResponse "m4" "alice" "built stuff" collabOK 3000
        stBothJoined).1.activeSessions "m4").getD emptySession) = true ∧
      subSessionsWF ((mapGet (submitStandupResponse "m4" "alice" "built stuff" collabOK 3000
        stBothJoined).1.activeSessions "m4").getD emptySession) = true) :=
  ⟨responses_iff_complete_inv.1 stPairSched "m4" 1000 stPairStarted
      ((mapGet stPairStarted.activeSessions "m4").getD emptySession) (by decide),
   responses_iff_complete_inv.2.1 stAliceJoined "m4" "bob" 2500
      ((mapGet stAliceJoined.activeSessions "m4").getD emptySession)
      ((mapGet stBothJoined.activeSessions "m4").getD emptySession)
      (by decide) (by decide) (by decide)
      (fun ss h => Option.noConfusion h) (by decide),
   responses_iff_complete_inv.2.2 stBothJoined "m4" "alice" "built stuff" collabOK 3000
      ((mapGet stBothJoined.activeSessions "m4").getD emptySession)
      ((mapGet (submitStandupResponse "m4" "alice" "built stuff" collabOK 3000
        stBothJoined).1.activeSessions "m4").getD emptySession)
      (by decide) (by decide) (by decide) (by decide) (by decide)⟩

end StandupCore
